import Mathlib

/-!
A shallow embedding of the command router and command store of the
discord-bot repository (files app/EventMain.py and app/DatabaseConnector.py).

Strings are modelled as Lean strings; the Python string operations used by
the source (split with a maxsplit bound, lower, negative slicing, strip of
quote characters) are reproduced character-for-character below.  The sqlite
tables are modelled as lists of rows in rowid order; rowids are assigned the
sqlite way (one more than the maximum existing rowid).  The hand-written
context manager db_conn commits unconditionally in its exit hook, so a
database operation that raises midway still persists every row it inserted
before the failure: each operation therefore returns the committed state
together with an optional raised error.  User identifiers are modelled as
strings, matching the literal the source compares against and the value the
store seeds at initialization.  Character lowering follows Lean, which
lowers the basic latin letters only; the command names involved in the
claims are ASCII, where the two agree.
-/

/-- Python errors that the embedded code can raise. -/
inductive PyErr where
  | integrityError
  | typeError
  | valueError
  | indexError
deriving DecidableEq, Repr

/-- Python content.split(chr, maxsplit) on a single space separator:
splits at each space, at most maxsplit times, keeping empty pieces and
leaving the remainder whole. -/
def pySplitSpaceAux : List Char → Nat → List Char → List String
  | [], _, acc => [String.mk acc.reverse]
  | ' ' :: rest, Nat.succ m, acc => String.mk acc.reverse :: pySplitSpaceAux rest m []
  | c :: rest, m, acc => pySplitSpaceAux rest m (c :: acc)

/-- Python s.split(chr(32), maxsplit). -/
def pySplitSpace (s : String) (maxsplit : Nat) : List String :=
  pySplitSpaceAux s.data maxsplit []

/-- Python s.lower, restricted to the basic latin letters. -/
def pyLower (s : String) : String :=
  String.mk (s.data.map Char.toLower)

/-- Python s[n:] (slicing counts characters). -/
def pyDropChars (s : String) (n : Nat) : String :=
  String.mk (s.data.drop n)

/-- Python s[-n:] : the last n characters, or all of s when it is shorter. -/
def pyTakeLast (s : String) (n : Nat) : String :=
  String.mk ((s.data.reverse.take n).reverse)

/-- Python s[:-n] : everything but the last n characters, empty when s is shorter. -/
def pyDropLast (s : String) (n : Nat) : String :=
  String.mk (s.data.take (s.data.length - n))

/-- Python s.strip(quote): removes every leading and trailing double quote. -/
def pyStripQuotes (s : String) : String :=
  String.mk (((s.data.dropWhile (· == '"')).reverse.dropWhile (· == '"')).reverse)

/-- A row of the text_commands table (id, command_name, response, admin). -/
structure TextRow where
  id : Nat
  command_name : String
  response : String
  admin : Bool
deriving DecidableEq, Repr

/-- A row of the role_commands table (id, command_name). -/
structure RoleCmdRow where
  id : Nat
  command_name : String
deriving DecidableEq, Repr

/-- A row of the roles table (id, role_id, role_command_id). -/
structure RoleRow where
  id : Nat
  role_id : Nat
  role_command_id : Nat
deriving DecidableEq, Repr

/-- The four tables created by BotDatabase.__init__, each in rowid order.
Admin rows are (id, user_id) pairs. -/
structure DBState where
  admins : List (Nat × String)
  text_commands : List TextRow
  role_commands : List RoleCmdRow
  roles : List RoleRow
deriving DecidableEq, Repr

/-- The rowid sqlite assigns to a fresh INSERT: one more than the maximum
rowid present. -/
def nextRowId (ids : List Nat) : Nat :=
  ids.foldr max 0 + 1

/-- The state right after BotDatabase.__init__ on a fresh database: empty
tables plus the seeded bootstrap admin row. -/
def initState : DBState :=
  ⟨[(1, "170045009318510593")], [], [], []⟩

/-- BotDatabase.add_admin: INSERT INTO admins, raising IntegrityError when
the user_id is already present (UNIQUE constraint). -/
def add_admin (user_id : String) (s : DBState) : DBState × Option PyErr :=
  if s.admins.any (fun p => p.2 == user_id) then
    (s, some .integrityError)
  else
    ({ s with admins := s.admins ++ [(nextRowId (s.admins.map (·.1)), user_id)] }, none)

/-- BotDatabase.delete_admin: DELETE FROM admins WHERE user_id matches. -/
def delete_admin (user_id : String) (s : DBState) : DBState :=
  { s with admins := s.admins.filter (fun p => p.2 != user_id) }

/-- BotDatabase.add_text_command: INSERT INTO text_commands, raising
IntegrityError when the command_name is already present. -/
def add_text_command (command_name response : String) (admin : Bool) (s : DBState) :
    DBState × Option PyErr :=
  if s.text_commands.any (fun r => r.command_name == command_name) then
    (s, some .integrityError)
  else
    ({ s with text_commands := s.text_commands ++
        [⟨nextRowId (s.text_commands.map (·.id)), command_name, response, admin⟩] }, none)

/-- BotDatabase.delete_text_command: DELETE FROM text_commands WHERE
command_name matches; absent names are a silent no-op. -/
def delete_text_command (command_name : String) (s : DBState) : DBState :=
  { s with text_commands := s.text_commands.filter (fun r => r.command_name != command_name) }

/-- BotDatabase.get_all_text_commands: SELECT star, with WHERE admin = 0
appended unless include_admin. -/
def get_all_text_commands (include_admin : Bool) (s : DBState) : List TextRow :=
  if include_admin then s.text_commands
  else s.text_commands.filter (fun r => !r.admin)

/-- BotDatabase.find_text_command: fetchone on command_name (and admin = 0
unless the admin flag); the returned dict holds command_name and response
only. -/
def find_text_command (name : String) (admin : Bool) (s : DBState) :
    Option (String × String) :=
  (s.text_commands.find? (fun r => r.command_name == name && (admin || !r.admin))).map
    (fun r => (r.command_name, r.response))

/-- BotDatabase.find_role_command: fetchone of the role_commands row; when
absent the TypeError is caught locally and None is returned; otherwise the
role_id list of the rows referencing it, in rowid order. -/
def find_role_command (command_name : String) (s : DBState) : Option (List Nat) :=
  match s.role_commands.find? (fun r => r.command_name == command_name) with
  | none => none
  | some rc => some ((s.roles.filter (fun r => r.role_command_id == rc.id)).map (·.role_id))

/-- The roles-insertion loop of BotDatabase.add_role_command: one INSERT per
role id, stopping at the first UNIQUE violation on role_id; rows inserted
before the failure stay (the context manager commits on error). -/
def insertRoles (rcid : Nat) : List Nat → DBState → DBState × Option PyErr
  | [], s => (s, none)
  | rid :: rest, s =>
    if s.roles.any (fun r => r.role_id == rid) then
      (s, some .integrityError)
    else
      insertRoles rcid rest
        { s with roles := s.roles ++ [⟨nextRowId (s.roles.map (·.id)), rid, rcid⟩] }

/-- BotDatabase.add_role_command: INSERT the role_commands row (IntegrityError
if the name exists), then one roles row per role id keyed by lastrowid. -/
def add_role_command (command_name : String) (roles : List Nat) (s : DBState) :
    DBState × Option PyErr :=
  if s.role_commands.any (fun r => r.command_name == command_name) then
    (s, some .integrityError)
  else
    let rcid := nextRowId (s.role_commands.map (·.id))
    insertRoles rcid roles
      { s with role_commands := s.role_commands ++ [⟨rcid, command_name⟩] }

/-- BotDatabase.delete_role_command: fetchone of the id (None[0] raises
TypeError when the name is absent), then DELETE the roles rows referencing
it, then DELETE the role_commands row. -/
def delete_role_command (command_name : String) (s : DBState) : DBState × Option PyErr :=
  match s.role_commands.find? (fun r => r.command_name == command_name) with
  | none => (s, some .typeError)
  | some rc =>
    let s1 := { s with roles := s.roles.filter (fun r => r.role_command_id != rc.id) }
    ({ s1 with role_commands :=
        s1.role_commands.filter (fun r => r.command_name != command_name) }, none)

/-- BotDatabase.get_all_role_commands: SELECT star FROM role_commands. -/
def get_all_role_commands (s : DBState) : List RoleCmdRow :=
  s.role_commands

/-- BotDatabase.is_user_admin: whether a row with this user_id exists. -/
def is_user_admin (user_id : String) (s : DBState) : Bool :=
  s.admins.any (fun p => p.2 == user_id)

/-! The DiscordClient layer of EventMain.py.  The client carries a command
prefix; an inbound message carries its author id, raw content, mentioned
user ids and mentioned role ids.  Routing a message returns the committed
database state, the outcome (a text sent to the channel, or an uncaught
Python exception that escapes the handler so that nothing is sent), and the
role ids whose grant to the author was requested. -/

/-- The inbound message data the router consumes. -/
structure Message where
  author_id : String
  content : String
  mentions : List String
  role_mentions : List Nat
deriving DecidableEq, Repr

/-- What routing a message produces besides the committed state. -/
inductive Outcome where
  | sent (text : String)
  | raised (e : PyErr)
deriving DecidableEq, Repr

/-- The full result of DiscordClient._parse_command. -/
structure RouteResult where
  state : DBState
  outcome : Outcome
  granted : List Nat
deriving DecidableEq, Repr

/-- self.admin_commands. -/
def admin_commands : List String := ["add", "remove"]

/-- self.static_commands. -/
def static_commands : List String := ["commands"]

/-- The local variable content of _parse_command: the message content with
the prefix sliced off. -/
def content_of (pfx : String) (msg : Message) : String :=
  pyDropChars msg.content pfx.length

/-- The local variable command of _parse_command: the lowered first
space-delimited token. -/
def first_token_lower (content : String) : String :=
  pyLower ((pySplitSpace content 1).headD "")

/-- The local variable cmd_type of _parse_command: content.split(chr(32), 2)[1],
absent when the index raises IndexError. -/
def subtype_token (content : String) : Option String :=
  (pySplitSpace content 2).get? 1

/-- Recursion core of dedupFirst, structural on a fuel argument so that the
function reduces definitionally; the fuel is always at least the list
length. -/
def dedupFirstAux : Nat → List String → List String
  | 0, _ => []
  | _ + 1, [] => []
  | n + 1, a :: l => a :: dedupFirstAux n (l.filter (fun b => b != a))

/-- Python dict.fromkeys applied to a list of names: removes later
duplicates, keeping the first occurrence of each name. -/
def dedupFirst (l : List String) : List String :=
  dedupFirstAux l.length l

/-- The local variable db_commands of _list_commands after sort and
dict.fromkeys: visible text command names and all role command names,
sorted, first occurrences kept. -/
def db_command_names (is_admin : Bool) (s : DBState) : List String :=
  let text_names := (get_all_text_commands is_admin s).map (·.command_name)
  let role_names := (get_all_role_commands s).map (·.command_name)
  dedupFirst (List.insertionSort (· ≤ ·) (text_names ++ role_names))

/-- DiscordClient._list_commands: the formatted listing string. -/
def list_commands (is_admin : Bool) (s : DBState) : String :=
  let commands_list := "**Available Commands:**\n\n"
  let commands_list := if is_admin then
      commands_list ++ "*Admin Commands:*\n> " ++ String.intercalate "\n> " admin_commands ++ "\n"
    else commands_list
  let commands_list := commands_list ++ "\n*General Commands*:\n> " ++
      String.intercalate "\n> " static_commands ++ "\n> "
  commands_list ++ String.intercalate "\n> " (db_command_names is_admin s)

/-- DiscordClient._add_text_command: unpack content.split(chr(32), 3) into
exactly four pieces (ValueError otherwise), silently return when the name is
a built-in, mark admin-only commands by the trailing word admin, strip
surrounding quotes from the response, and insert. -/
def add_text_command_h (content : String) (s : DBState) : DBState × Option PyErr :=
  match pySplitSpace content 3 with
  | [_, _, command_name, response0] =>
    if admin_commands.contains command_name || static_commands.contains command_name then
      (s, none)
    else
      let p := if pyTakeLast response0 5 == "admin" then (true, pyDropLast response0 6)
               else (false, response0)
      add_text_command command_name (pyStripQuotes p.2) p.1 s
  | _ => (s, some .valueError)

/-- DiscordClient._delete_text_command: unpack content.split(chr(32), 3) into
exactly three pieces (ValueError otherwise) and delete by name. -/
def delete_text_command_h (content : String) (s : DBState) : DBState × Option PyErr :=
  match pySplitSpace content 3 with
  | [_, _, command_name] => (delete_text_command command_name s, none)
  | _ => (s, some .valueError)

/-- DiscordClient._add_role_command: the starred unpack needs at least three
pieces (ValueError otherwise); inserts the command with the mentioned role ids. -/
def add_role_command_h (content : String) (role_mentions : List Nat) (s : DBState) :
    DBState × Option PyErr :=
  match pySplitSpace content 3 with
  | _ :: _ :: command_name :: _ => add_role_command command_name role_mentions s
  | _ => (s, some .valueError)

/-- DiscordClient._delete_role_command: the starred unpack needs at least
three pieces (ValueError otherwise); deletes by name. -/
def delete_role_command_h (content : String) (s : DBState) : DBState × Option PyErr :=
  match pySplitSpace content 3 with
  | _ :: _ :: command_name :: _ => delete_role_command command_name s
  | _ => (s, some .valueError)

/-- DiscordClient._add_admins: one add_admin per mentioned member, each in
its own committed transaction, stopping at the first IntegrityError. -/
def add_admins_h : List String → DBState → DBState × Option PyErr
  | [], s => (s, none)
  | uid :: rest, s =>
    match add_admin uid s with
    | (s1, none) => add_admins_h rest s1
    | (s1, some e) => (s1, some e)

/-- DiscordClient._parse_command: the full routing decision procedure. -/
def parse_command (pfx : String) (msg : Message) (s : DBState) : RouteResult :=
  let content := content_of pfx msg
  let command := first_token_lower content
  let is_admin := is_user_admin msg.author_id s
  if command == "commands" then
    ⟨s, .sent (list_commands is_admin s), []⟩
  else if admin_commands.contains command && is_admin then
    match subtype_token content with
    | none => ⟨s, .raised .indexError, []⟩
    | some cmd_type =>
      if cmd_type == "textcommand" then
        if command == "add" then
          match add_text_command_h content s with
          | (s1, none) => ⟨s1, .sent "Command added!", []⟩
          | (s1, some .integrityError) =>
              ⟨s1, .sent "A command with that name already exists!", []⟩
          | (s1, some e) => ⟨s1, .raised e, []⟩
        else
          match delete_text_command_h content s with
          | (s1, none) => ⟨s1, .sent "Command removed!", []⟩
          | (s1, some e) => ⟨s1, .raised e, []⟩
      else if cmd_type == "rolecommand" then
        if command == "add" then
          match add_role_command_h content msg.role_mentions s with
          | (s1, none) => ⟨s1, .sent "Command added!", []⟩
          | (s1, some .integrityError) =>
              ⟨s1, .sent "A role command with that name already exists!", []⟩
          | (s1, some e) => ⟨s1, .raised e, []⟩
        else
          match delete_role_command_h content s with
          | (s1, none) => ⟨s1, .sent "Command removed!", []⟩
          | (s1, some e) => ⟨s1, .raised e, []⟩
      else if cmd_type == "su" || cmd_type == "admin" || cmd_type == "superuser" then
        if command == "add" then
          match add_admins_h msg.mentions s with
          | (s1, none) => ⟨s1, .sent "User added as admin!", []⟩
          | (s1, some .integrityError) => ⟨s1, .sent "That user is already an admin!", []⟩
          | (s1, some e) => ⟨s1, .raised e, []⟩
        else
          let s1 := if msg.author_id == "170045009318510593" then
              msg.mentions.foldl (fun st uid => delete_admin uid st) s
            else delete_admin msg.author_id s
          ⟨s1, .sent "User removed from admin!", []⟩
      else ⟨s, .sent "Invalid command!", []⟩
  else
    let text_command := find_text_command command is_admin s
    let role_step : String × List Nat :=
      match find_role_command command s with
      | some rids => if rids.isEmpty then ("Invalid command!", []) else ("Roles granted!", rids)
      | none => ("Invalid command!", [])
    let response := match text_command with
      | some tc => tc.2
      | none => role_step.1
    ⟨s, .sent response, role_step.2⟩

/-! Helper lemmas shared by the claim theorems. -/

/-! Sanity checks of the embedding on concrete inputs. -/

example : pySplitSpace "add textcommand greet \"hi there\" admin" 3 =
    ["add", "textcommand", "greet", "\"hi there\" admin"] := by decide

example : pySplitSpace "" 1 = [""] := by decide

example : pySplitSpace "a  b" 1 = ["a", " b"] := by decide

example : (add_role_command "welcome" [1, 2, 3] initState).1.roles.map (·.role_id) =
    [1, 2, 3] := by decide

example :
    parse_command "!" ⟨"170045009318510593", "!commands", [], []⟩ initState =
      ⟨initState,
       .sent ("**Available Commands:**\n\n*Admin Commands:*\n> add\n> remove\n" ++
              "\n*General Commands*:\n> commands\n> "), []⟩ := by decide

lemma char_isUpper_iff (c : Char) : c.isUpper = true ↔ 65 ≤ c.toNat ∧ c.toNat ≤ 90 := by
  simp [Char.isUpper, UInt32.le_def, BitVec.le_def, Char.toNat, UInt32.toNat, ge_iff_le]

lemma isUpper_toLower (c : Char) : (Char.toLower c).isUpper = false := by
  simp only [Char.toLower]
  split
  next h =>
    obtain ⟨h1, h2⟩ := h
    revert h1 h2
    generalize Char.toNat c = n
    intro h1 h2
    interval_cases n <;> decide
  next h =>
    rw [← Bool.not_eq_true, char_isUpper_iff]
    exact h

lemma pyLower_ne_of_hasUpper {n : String} (h : n.data.any Char.isUpper = true)
    (w : String) : pyLower w ≠ n := by
  intro he
  rw [← he] at h
  simp only [pyLower, List.any_eq_true] at h
  obtain ⟨c, hc, hup⟩ := h
  obtain ⟨d, _, rfl⟩ := List.mem_map.mp hc
  rw [isUpper_toLower] at hup
  cases hup

lemma dedupFirstAux_mem {n : Nat} : ∀ {l : List String}, l.length ≤ n →
    ∀ {x : String}, x ∈ dedupFirstAux n l ↔ x ∈ l := by
  induction n with
  | zero =>
    intro l hl x
    rw [Nat.le_zero, List.length_eq_zero] at hl
    subst hl
    simp [dedupFirstAux]
  | succ n ih =>
    intro l hl x
    match l with
    | [] => simp [dedupFirstAux]
    | a :: t =>
      simp only [dedupFirstAux, List.mem_cons]
      have hlen : (t.filter (fun b => b != a)).length ≤ n :=
        le_trans (List.length_filter_le _ _) (Nat.le_of_succ_le_succ hl)
      rw [ih hlen]
      simp only [List.mem_filter, bne_iff_ne, ne_eq]
      constructor
      · rintro (rfl | ⟨hmem, _⟩)
        · exact Or.inl rfl
        · exact Or.inr hmem
      · rintro (rfl | hmem)
        · exact Or.inl rfl
        · by_cases hx : x = a
          · exact Or.inl hx
          · exact Or.inr ⟨hmem, hx⟩

lemma mem_dedupFirst {l : List String} {x : String} : x ∈ dedupFirst l ↔ x ∈ l :=
  dedupFirstAux_mem (Nat.le_refl _)

lemma dedupFirstAux_nodup {n : Nat} : ∀ {l : List String}, l.length ≤ n →
    (dedupFirstAux n l).Nodup := by
  induction n with
  | zero =>
    intro l hl
    rw [Nat.le_zero, List.length_eq_zero] at hl
    subst hl
    simp [dedupFirstAux]
  | succ n ih =>
    intro l hl
    match l with
    | [] => simp [dedupFirstAux]
    | a :: t =>
      simp only [dedupFirstAux, List.nodup_cons]
      have hlen : (t.filter (fun b => b != a)).length ≤ n :=
        le_trans (List.length_filter_le _ _) (Nat.le_of_succ_le_succ hl)
      refine ⟨fun hmem => ?_, ih hlen⟩
      rw [dedupFirstAux_mem hlen] at hmem
      have := (List.mem_filter.mp hmem).2
      simp at this

lemma nodup_dedupFirst (l : List String) : (dedupFirst l).Nodup :=
  dedupFirstAux_nodup (Nat.le_refl _)

lemma dedupFirstAux_sublist {n : Nat} : ∀ {l : List String}, l.length ≤ n →
    List.Sublist (dedupFirstAux n l) l := by
  induction n with
  | zero =>
    intro l hl
    rw [Nat.le_zero, List.length_eq_zero] at hl
    subst hl
    simp [dedupFirstAux]
  | succ n ih =>
    intro l hl
    match l with
    | [] => simp [dedupFirstAux]
    | a :: t =>
      have hlen : (t.filter (fun b => b != a)).length ≤ n :=
        le_trans (List.length_filter_le _ _) (Nat.le_of_succ_le_succ hl)
      exact (ih hlen).trans (List.filter_sublist t) |>.cons₂ a

lemma sublist_dedupFirst (l : List String) : List.Sublist (dedupFirst l) l :=
  dedupFirstAux_sublist (Nat.le_refl _)

lemma sorted_db_command_names (a : Bool) (s : DBState) :
    List.Sorted (· ≤ ·) (db_command_names a s) := by
  have h := List.sorted_insertionSort (α := String) (· ≤ ·)
    (((get_all_text_commands a s).map (·.command_name)) ++
      ((get_all_role_commands s).map (·.command_name)))
  exact h.sublist (sublist_dedupFirst _)

lemma nodup_db_command_names (a : Bool) (s : DBState) :
    (db_command_names a s).Nodup :=
  nodup_dedupFirst _

lemma mem_db_command_names {a : Bool} {s : DBState} {x : String} :
    x ∈ db_command_names a s ↔
      x ∈ (get_all_text_commands a s).map (·.command_name) ∨
      x ∈ (get_all_role_commands s).map (·.command_name) := by
  unfold db_command_names
  rw [mem_dedupFirst]
  rw [List.Perm.mem_iff (List.perm_insertionSort _ _)]
  exact List.mem_append

lemma insertRoles_role_commands (rcid : Nat) : ∀ (l : List Nat) (s : DBState),
    (insertRoles rcid l s).1.role_commands = s.role_commands := by
  intro l
  induction l with
  | nil => intro s; rfl
  | cons r rest ih =>
    intro s
    simp only [insertRoles]
    split
    · rfl
    · rw [ih]

lemma foldl_delete_admin (ms : List String) (s : DBState) :
    (ms.foldl (fun st uid => delete_admin uid st) s).admins
      = s.admins.filter (fun p => !(ms.contains p.2)) := by
  induction ms generalizing s with
  | nil => simp
  | cons m rest ih =>
    rw [List.foldl_cons, ih]
    simp only [delete_admin, List.filter_filter]
    apply List.filter_congr
    intro p _
    simp only [List.contains_cons]
    cases h1 : p.2 == m <;> cases h2 : rest.contains p.2 <;> simp [h1, h2, bne]

lemma route_plain (pfx : String) (msg : Message) (s : DBState)
    (h1 : (first_token_lower (content_of pfx msg) == "commands") = false)
    (h2 : (admin_commands.contains (first_token_lower (content_of pfx msg)) &&
           is_user_admin msg.author_id s) = false) :
    parse_command pfx msg s =
      (let role_step : String × List Nat :=
        match find_role_command (first_token_lower (content_of pfx msg)) s with
        | some rids => if rids.isEmpty then ("Invalid command!", []) else ("Roles granted!", rids)
        | none => ("Invalid command!", [])
      ⟨s,
       .sent (match find_text_command (first_token_lower (content_of pfx msg))
                (is_user_admin msg.author_id s) s with
              | some tc => tc.2
              | none => role_step.1),
       role_step.2⟩) := by
  simp only [parse_command, h1, h2]
  rfl

lemma route_add_textcommand (pfx : String) (msg : Message) (s : DBState)
    (ha : is_user_admin msg.author_id s = true)
    (hc : first_token_lower (content_of pfx msg) = "add")
    (hs : subtype_token (content_of pfx msg) = some "textcommand") :
    parse_command pfx msg s =
      match add_text_command_h (content_of pfx msg) s with
      | (s1, none) => ⟨s1, .sent "Command added!", []⟩
      | (s1, some .integrityError) =>
          ⟨s1, .sent "A command with that name already exists!", []⟩
      | (s1, some e) => ⟨s1, .raised e, []⟩ := by
  simp only [parse_command, ha, hc, hs]
  rfl

lemma route_remove_rolecommand (pfx : String) (msg : Message) (s : DBState)
    (ha : is_user_admin msg.author_id s = true)
    (hc : first_token_lower (content_of pfx msg) = "remove")
    (hs : subtype_token (content_of pfx msg) = some "rolecommand") :
    parse_command pfx msg s =
      match delete_role_command_h (content_of pfx msg) s with
      | (s1, none) => ⟨s1, .sent "Command removed!", []⟩
      | (s1, some e) => ⟨s1, .raised e, []⟩ := by
  simp only [parse_command, ha, hc, hs]
  rfl

lemma route_remove_admin (pfx : String) (msg : Message) (s : DBState) (st : String)
    (ha : is_user_admin msg.author_id s = true)
    (hc : first_token_lower (content_of pfx msg) = "remove")
    (hs : subtype_token (content_of pfx msg) = some st)
    (hst : st = "su" ∨ st = "admin" ∨ st = "superuser") :
    parse_command pfx msg s =
      ⟨(if msg.author_id == "170045009318510593" then
          msg.mentions.foldl (fun st2 uid => delete_admin uid st2) s
        else delete_admin msg.author_id s),
       .sent "User removed from admin!", []⟩ := by
  rcases hst with rfl | rfl | rfl <;>
    · simp only [parse_command, ha, hc, hs]
      rfl

/-! Claim theorems. -/

/-- C9: routing a message whose sender is not an admin never mutates any of
the stored collections: every branch reachable without admin status only
reads the store, so the routed state equals the input state. -/
theorem nonadmin_routing_never_mutates (pfx : String) (msg : Message) (s : DBState)
    (h : is_user_admin msg.author_id s = false) :
    (parse_command pfx msg s).state = s := by
  cases hb : (first_token_lower (content_of pfx msg) == "commands") with
  | true =>
    simp only [parse_command, hb]
    rfl
  | false =>
    rw [route_plain pfx msg s hb (by rw [h, Bool.and_false])]

/-- C9 witness: a concrete non-admin message routes to an unchanged store. -/
theorem nonadmin_routing_never_mutates_witness :
    (parse_command "!" ⟨"99", "!add textcommand x y", [], []⟩ initState).state = initState :=
  nonadmin_routing_never_mutates "!" ⟨"99", "!add textcommand x y", [], []⟩ initState (by decide)

/-- C1: for a remove-admin command issued by an admin caller, a caller whose
identifier equals the bootstrap identifier has the admin entry of every
mentioned user removed, while any other admin caller has only their own
entry removed, regardless of the mention list; both receive the removal
confirmation. -/
theorem remove_admin_bootstrap_vs_other
    (pfx1 : String) (msg1 : Message) (s1 : DBState) (st1 : String)
    (ha1 : is_user_admin msg1.author_id s1 = true)
    (hc1 : first_token_lower (content_of pfx1 msg1) = "remove")
    (hs1 : subtype_token (content_of pfx1 msg1) = some st1)
    (hst1 : st1 = "su" ∨ st1 = "admin" ∨ st1 = "superuser")
    (hboot : msg1.author_id = "170045009318510593")
    (pfx2 : String) (msg2 : Message) (s2 : DBState) (st2 : String)
    (ha2 : is_user_admin msg2.author_id s2 = true)
    (hc2 : first_token_lower (content_of pfx2 msg2) = "remove")
    (hs2 : subtype_token (content_of pfx2 msg2) = some st2)
    (hst2 : st2 = "su" ∨ st2 = "admin" ∨ st2 = "superuser")
    (hother : (msg2.author_id == "170045009318510593") = false) :
    ((parse_command pfx1 msg1 s1).state.admins
        = s1.admins.filter (fun p => !(msg1.mentions.contains p.2)) ∧
     (parse_command pfx1 msg1 s1).outcome = .sent "User removed from admin!") ∧
    ((parse_command pfx2 msg2 s2).state.admins
        = s2.admins.filter (fun p => p.2 != msg2.author_id) ∧
     (parse_command pfx2 msg2 s2).outcome = .sent "User removed from admin!") := by
  rw [route_remove_admin pfx1 msg1 s1 st1 ha1 hc1 hs1 hst1,
      route_remove_admin pfx2 msg2 s2 st2 ha2 hc2 hs2 hst2]
  have hb1 : (msg1.author_id == "170045009318510593") = true := by
    rw [hboot]; rfl
  refine ⟨⟨?_, ?_⟩, ⟨?_, ?_⟩⟩
  · simp only [hb1, if_true]
    exact foldl_delete_admin msg1.mentions s1
  · simp only [hb1]
  · simp only [hother]
    rfl
  · simp only [hother]

/-- C1 witness: the bootstrap caller removes the mentioned admin; an
ordinary admin caller mentioning the bootstrap admin removes only
themselves. -/
theorem remove_admin_bootstrap_vs_other_witness :
    ((parse_command "!" ⟨"170045009318510593", "!remove admin", ["42"], []⟩
        ⟨[(1, "170045009318510593"), (2, "42")], [], [], []⟩).state.admins
      = ([(1, "170045009318510593"), (2, "42")] : List (Nat × String)).filter
          (fun p => !((["42"] : List String).contains p.2)) ∧
     (parse_command "!" ⟨"170045009318510593", "!remove admin", ["42"], []⟩
        ⟨[(1, "170045009318510593"), (2, "42")], [], [], []⟩).outcome
      = .sent "User removed from admin!") ∧
    ((parse_command "!" ⟨"42", "!remove admin", ["170045009318510593"], []⟩
        ⟨[(1, "170045009318510593"), (2, "42")], [], [], []⟩).state.admins
      = ([(1, "170045009318510593"), (2, "42")] : List (Nat × String)).filter
          (fun p => p.2 != "42") ∧
     (parse_command "!" ⟨"42", "!remove admin", ["170045009318510593"], []⟩
        ⟨[(1, "170045009318510593"), (2, "42")], [], [], []⟩).outcome
      = .sent "User removed from admin!") :=
  remove_admin_bootstrap_vs_other
    "!" ⟨"170045009318510593", "!remove admin", ["42"], []⟩
    ⟨[(1, "170045009318510593"), (2, "42")], [], [], []⟩ "admin"
    (by decide) (by decide) (by decide) (Or.inr (Or.inl rfl)) rfl
    "!" ⟨"42", "!remove admin", ["170045009318510593"], []⟩
    ⟨[(1, "170045009318510593"), (2, "42")], [], [], []⟩ "admin"
    (by decide) (by decide) (by decide) (Or.inr (Or.inl rfl)) (by decide)

/-- C3 counterexample: an admin removing an absent role command receives no
routed failure message; the TypeError raised by fetchone()[0] propagates
out of the router as an uncaught internal exception and nothing is sent. -/
theorem remove_absent_rolecommand_raises :
    parse_command "!" ⟨"170045009318510593", "!remove rolecommand foo", [], []⟩ initState =
      ⟨initState, .raised .typeError, []⟩ := by decide

/-- C3 amended: removeRoleCommand of an absent name raises TypeError (which
the router propagates unhandled, sending no response) while leaving the
store unchanged; for a present name it deletes every grant row referencing
the fetched command id and every row of that name, without error, in one
committed unit. -/
theorem remove_rolecommand_behavior
    (s1 : DBState) (name1 : String)
    (habs : s1.role_commands.all (fun r => r.command_name != name1) = true)
    (s2 : DBState) (name2 : String) (rc : RoleCmdRow)
    (hfind : s2.role_commands.find? (fun r => r.command_name == name2) = some rc)
    (pfx : String) (msg : Message) (s3 : DBState) (name3 : String)
    (ha : is_user_admin msg.author_id s3 = true)
    (hc : first_token_lower (content_of pfx msg) = "remove")
    (hs : subtype_token (content_of pfx msg) = some "rolecommand")
    (hsplit : pySplitSpace (content_of pfx msg) 3 = ["remove", "rolecommand", name3])
    (habs3 : s3.role_commands.all (fun r => r.command_name != name3) = true) :
    delete_role_command name1 s1 = (s1, some .typeError) ∧
    ((delete_role_command name2 s2).2 = none ∧
     (∀ r ∈ (delete_role_command name2 s2).1.roles, (r.role_command_id == rc.id) = false) ∧
     (delete_role_command name2 s2).1.role_commands.all
        (fun r => r.command_name != name2) = true) ∧
    parse_command pfx msg s3 = ⟨s3, .raised .typeError, []⟩ := by
  have absent_find : ∀ (s : DBState) (n : String),
      s.role_commands.all (fun r => r.command_name != n) = true →
      s.role_commands.find? (fun r => r.command_name == n) = none := by
    intro s n hall
    rw [List.find?_eq_none]
    intro r hr
    have := (List.all_eq_true.mp hall) r hr
    simp only [bne_iff_ne, ne_eq] at this
    simp [this]
  refine ⟨?_, ⟨?_, ?_, ?_⟩, ?_⟩
  · unfold delete_role_command
    rw [absent_find s1 name1 habs]
  · unfold delete_role_command
    rw [hfind]
  · unfold delete_role_command
    rw [hfind]
    intro r hr
    have := (List.mem_filter.mp hr).2
    simpa [bne] using this
  · unfold delete_role_command
    rw [hfind]
    rw [List.all_eq_true]
    intro r hr
    exact (List.mem_filter.mp hr).2
  · rw [route_remove_rolecommand pfx msg s3 ha hc hs]
    unfold delete_role_command_h
    rw [hsplit]
    have hdel : delete_role_command name3 s3 = (s3, some .typeError) := by
      unfold delete_role_command
      rw [absent_find s3 name3 habs3]
    dsimp only
    rw [hdel]

/-- C3 witness: concrete instances of the absent-name and present-name
removal behavior. -/
theorem remove_rolecommand_behavior_witness :
    delete_role_command "foo" initState = (initState, some .typeError) ∧
    ((delete_role_command "x" ⟨[], [], [⟨1, "x"⟩], [⟨1, 5, 1⟩]⟩).2 = none ∧
     (∀ r ∈ (delete_role_command "x" ⟨[], [], [⟨1, "x"⟩], [⟨1, 5, 1⟩]⟩).1.roles,
        (r.role_command_id == (⟨1, "x"⟩ : RoleCmdRow).id) = false) ∧
     (delete_role_command "x" ⟨[], [], [⟨1, "x"⟩], [⟨1, 5, 1⟩]⟩).1.role_commands.all
        (fun r => r.command_name != "x") = true) ∧
    parse_command "!" ⟨"170045009318510593", "!remove rolecommand bar", [], []⟩ initState =
      ⟨initState, .raised .typeError, []⟩ :=
  remove_rolecommand_behavior initState "foo" (by decide)
    ⟨[], [], [⟨1, "x"⟩], [⟨1, 5, 1⟩]⟩ "x" ⟨1, "x"⟩ (by decide)
    "!" ⟨"170045009318510593", "!remove rolecommand bar", [], []⟩ initState "bar"
    (by decide) (by decide) (by decide) (by decide) (by decide)

/-- C2 counterexample: inserting role command b with role id 1 after role
command a already holds role id 1 fails on the UNIQUE role_id constraint
after the RoleCommand row was inserted, and the commit in the exit hook
leaves that row visible: the store is not unchanged. -/
theorem add_role_command_partial_failure_commits :
    (add_role_command "b" [1]
        ⟨[(1, "170045009318510593")], [], [⟨1, "a"⟩], [⟨1, 1, 1⟩]⟩).2
      = some .integrityError ∧
    (add_role_command "b" [1]
        ⟨[(1, "170045009318510593")], [], [⟨1, "a"⟩], [⟨1, 1, 1⟩]⟩).1
      ≠ ⟨[(1, "170045009318510593")], [], [⟨1, "a"⟩], [⟨1, 1, 1⟩]⟩ ∧
    (add_role_command "b" [1]
        ⟨[(1, "170045009318510593")], [], [⟨1, "a"⟩], [⟨1, 1, 1⟩]⟩).1.role_commands.any
      (fun r => r.command_name == "b") = true := by decide

/-- C2 amended: only a duplicate-name failure leaves the store unchanged;
when a RoleGrant insert fails partway after a fresh name was inserted, the
new RoleCommand row (and any grant rows inserted before the failure) remain
visible, because db_conn commits even when an exception is propagating. -/
theorem add_role_command_atomicity_only_for_duplicates
    (s1 : DBState) (n1 : String) (rids1 : List Nat)
    (hdup : s1.role_commands.any (fun r => r.command_name == n1) = true)
    (s2 : DBState) (n2 : String) (rids2 : List Nat) (e : PyErr)
    (hfresh : s2.role_commands.any (fun r => r.command_name == n2) = false)
    (herr : (add_role_command n2 rids2 s2).2 = some e) :
    add_role_command n1 rids1 s1 = (s1, some .integrityError) ∧
    (add_role_command n2 rids2 s2).1.role_commands.any
      (fun r => r.command_name == n2) = true := by
  constructor
  · unfold add_role_command
    rw [hdup]
    rfl
  · unfold add_role_command
    rw [hfresh]
    simp only [Bool.false_eq_true, if_false, insertRoles_role_commands,
      List.any_append, List.any_cons, List.any_nil, beq_self_eq_true,
      Bool.true_or, Bool.or_true]

/-- C2 witness: concrete duplicate-name and partial-failure instances. -/
theorem add_role_command_atomicity_only_for_duplicates_witness :
    add_role_command "a" [7] ⟨[], [], [⟨1, "a"⟩], []⟩
      = (⟨[], [], [⟨1, "a"⟩], []⟩, some .integrityError) ∧
    (add_role_command "b" [1]
        ⟨[(1, "170045009318510593")], [], [⟨1, "a"⟩], [⟨1, 1, 1⟩]⟩).1.role_commands.any
      (fun r => r.command_name == "b") = true :=
  add_role_command_atomicity_only_for_duplicates
    ⟨[], [], [⟨1, "a"⟩], []⟩ "a" [7] (by decide)
    ⟨[(1, "170045009318510593")], [], [⟨1, "a"⟩], [⟨1, 1, 1⟩]⟩ "b" [1] .integrityError
    (by decide) (by decide)

/-- C4 counterexample: role command x exists (the lookup returns a match
with an empty grant list, as created by an add with no role mentions), no
text command matches, yet the response is the generic invalid-command text
rather than the role-grant confirmation. -/
theorem plain_invocation_empty_grant_list_not_confirmed :
    parse_command "!" ⟨"99", "!x", [], []⟩
        ⟨[(1, "170045009318510593")], [], [⟨1, "x"⟩], []⟩ =
      ⟨⟨[(1, "170045009318510593")], [], [⟨1, "x"⟩], []⟩, .sent "Invalid command!", []⟩ ∧
    find_role_command "x" ⟨[(1, "170045009318510593")], [], [⟨1, "x"⟩], []⟩ = some [] ∧
    find_text_command "x" false ⟨[(1, "170045009318510593")], [], [⟨1, "x"⟩], []⟩ = none := by
  decide

/-- C4 amended: a plain invocation evaluates both lookups and leaves the
store unchanged; the grants of a matching role command are requested
whenever its grant list is non-empty; a matching text command's response
text wins over the role-grant confirmation; the role-grant confirmation is
returned only when no text command matches and the matching role command
has a non-empty grant list, and with no text match and no role match (or a
match with an empty grant list) the generic invalid response is returned. -/
theorem plain_invocation_resolution (pfx : String) (msg : Message) (s : DBState)
    (h1 : (first_token_lower (content_of pfx msg) == "commands") = false)
    (h2 : (admin_commands.contains (first_token_lower (content_of pfx msg)) &&
           is_user_admin msg.author_id s) = false) :
    (parse_command pfx msg s).state = s ∧
    (parse_command pfx msg s).granted =
      (match find_role_command (first_token_lower (content_of pfx msg)) s with
       | some rids => if rids.isEmpty then [] else rids
       | none => []) ∧
    (∀ n r, find_text_command (first_token_lower (content_of pfx msg))
          (is_user_admin msg.author_id s) s = some (n, r) →
        (parse_command pfx msg s).outcome = .sent r) ∧
    (find_text_command (first_token_lower (content_of pfx msg))
          (is_user_admin msg.author_id s) s = none →
      ∀ l, find_role_command (first_token_lower (content_of pfx msg)) s = some l →
        l.isEmpty = false → (parse_command pfx msg s).outcome = .sent "Roles granted!") ∧
    (find_text_command (first_token_lower (content_of pfx msg))
          (is_user_admin msg.author_id s) s = none →
      (find_role_command (first_token_lower (content_of pfx msg)) s = none ∨
       find_role_command (first_token_lower (content_of pfx msg)) s = some []) →
        (parse_command pfx msg s).outcome = .sent "Invalid command!") := by
  rw [route_plain pfx msg s h1 h2]
  refine ⟨rfl, ?_, ?_, ?_, ?_⟩
  · cases hr : find_role_command (first_token_lower (content_of pfx msg)) s with
    | none => rfl
    | some rids =>
      cases he : rids.isEmpty <;> simp [he]
  · intro n r ht
    cases hr : find_role_command (first_token_lower (content_of pfx msg)) s <;>
      simp [ht, hr]
  · intro ht l hr he
    simp [ht, hr, he]
  · intro ht hr
    rcases hr with hr | hr <;> simp [ht, hr]

/-- C4 witness: a state holding role command go with grant list 5, 6 and a
text command go whose response wins while the grants are still requested. -/
theorem plain_invocation_resolution_witness :
    (parse_command "!" ⟨"99", "!go", [], []⟩
        ⟨[(1, "170045009318510593")], [⟨1, "go", "hi", false⟩], [⟨1, "go"⟩],
          [⟨1, 5, 1⟩, ⟨2, 6, 1⟩]⟩).state
      = ⟨[(1, "170045009318510593")], [⟨1, "go", "hi", false⟩], [⟨1, "go"⟩],
          [⟨1, 5, 1⟩, ⟨2, 6, 1⟩]⟩ ∧
    (parse_command "!" ⟨"99", "!go", [], []⟩
        ⟨[(1, "170045009318510593")], [⟨1, "go", "hi", false⟩], [⟨1, "go"⟩],
          [⟨1, 5, 1⟩, ⟨2, 6, 1⟩]⟩).granted = [5, 6] ∧
    (parse_command "!" ⟨"99", "!go", [], []⟩
        ⟨[(1, "170045009318510593")], [⟨1, "go", "hi", false⟩], [⟨1, "go"⟩],
          [⟨1, 5, 1⟩, ⟨2, 6, 1⟩]⟩).outcome = .sent "hi" := by
  have h := plain_invocation_resolution "!" ⟨"99", "!go", [], []⟩
    ⟨[(1, "170045009318510593")], [⟨1, "go", "hi", false⟩], [⟨1, "go"⟩],
      [⟨1, 5, 1⟩, ⟨2, 6, 1⟩]⟩ (by decide) (by decide)
  exact ⟨h.1, by rw [h.2.1]; decide, h.2.2.1 "go" "hi" (by decide)⟩

/-- C5: an admin add of a text command whose name is a built-in performs no
database insert and the whole store is unchanged; an add whose name
duplicates an existing text command leaves the store unchanged and surfaces
the subtype-specific already-exists response produced from the caught
IntegrityError. -/
theorem add_text_command_collision_safe
    (pfx1 : String) (msg1 : Message) (s1 : DBState) (a1 b1 name1 resp1 : String)
    (ha1 : is_user_admin msg1.author_id s1 = true)
    (hc1 : first_token_lower (content_of pfx1 msg1) = "add")
    (hs1 : subtype_token (content_of pfx1 msg1) = some "textcommand")
    (hsplit1 : pySplitSpace (content_of pfx1 msg1) 3 = [a1, b1, name1, resp1])
    (hbuiltin : (admin_commands.contains name1 || static_commands.contains name1) = true)
    (pfx2 : String) (msg2 : Message) (s2 : DBState) (a2 b2 name2 resp2 : String)
    (ha2 : is_user_admin msg2.author_id s2 = true)
    (hc2 : first_token_lower (content_of pfx2 msg2) = "add")
    (hs2 : subtype_token (content_of pfx2 msg2) = some "textcommand")
    (hsplit2 : pySplitSpace (content_of pfx2 msg2) 3 = [a2, b2, name2, resp2])
    (hnb : (admin_commands.contains name2 || static_commands.contains name2) = false)
    (hdup : s2.text_commands.any (fun r => r.command_name == name2) = true) :
    (parse_command pfx1 msg1 s1).state = s1 ∧
    ((parse_command pfx2 msg2 s2).state = s2 ∧
     (parse_command pfx2 msg2 s2).outcome
       = .sent "A command with that name already exists!") := by
  rw [route_add_textcommand pfx1 msg1 s1 ha1 hc1 hs1,
      route_add_textcommand pfx2 msg2 s2 ha2 hc2 hs2]
  unfold add_text_command_h
  rw [hsplit1, hsplit2]
  dsimp only
  rw [hbuiltin, hnb]
  have hadd : add_text_command name2
      (pyStripQuotes (if (pyTakeLast resp2 5 == "admin") = true
        then (true, pyDropLast resp2 6) else (false, resp2)).2)
      (if (pyTakeLast resp2 5 == "admin") = true
        then (true, pyDropLast resp2 6) else (false, resp2)).1 s2
      = (s2, some .integrityError) := by
    unfold add_text_command
    rw [hdup]
    rfl
  simp only [Bool.false_eq_true, if_false, if_true, hadd]
  exact ⟨trivial, trivial, trivial⟩

/-- C5 witness: adding the built-in name commands changes nothing; adding
the duplicate name greet changes nothing and reports the name clash. -/
theorem add_text_command_collision_safe_witness :
    (parse_command "!" ⟨"170045009318510593", "!add textcommand commands x", [], []⟩
        initState).state = initState ∧
    ((parse_command "!" ⟨"170045009318510593", "!add textcommand greet y", [], []⟩
        ⟨[(1, "170045009318510593")], [⟨1, "greet", "hi", false⟩], [], []⟩).state
      = ⟨[(1, "170045009318510593")], [⟨1, "greet", "hi", false⟩], [], []⟩ ∧
     (parse_command "!" ⟨"170045009318510593", "!add textcommand greet y", [], []⟩
        ⟨[(1, "170045009318510593")], [⟨1, "greet", "hi", false⟩], [], []⟩).outcome
      = .sent "A command with that name already exists!") :=
  add_text_command_collision_safe
    "!" ⟨"170045009318510593", "!add textcommand commands x", [], []⟩ initState
    "add" "textcommand" "commands" "x"
    (by decide) (by decide) (by decide) (by decide) (by decide)
    "!" ⟨"170045009318510593", "!add textcommand greet y", [], []⟩
    ⟨[(1, "170045009318510593")], [⟨1, "greet", "hi", false⟩], [], []⟩
    "add" "textcommand" "greet" "y"
    (by decide) (by decide) (by decide) (by decide) (by decide) (by decide)

/-- C6 counterexample: two states that differ only in the stored adminOnly
flag give identical findTextCommand results, and the result is the pair of
name and response: the flag is not part of what findTextCommand returns, so
the operation cannot return exactly the stored triple. -/
theorem find_text_command_drops_admin_flag :
    (add_text_command "greet" "hi" true initState).1
      ≠ (add_text_command "greet" "hi" false initState).1 ∧
    find_text_command "greet" true (add_text_command "greet" "hi" true initState).1
      = find_text_command "greet" true (add_text_command "greet" "hi" false initState).1 ∧
    find_text_command "greet" true (add_text_command "greet" "hi" true initState).1
      = some ("greet", "hi") := by decide

/-- C6 amended: after adding a fresh (name, response, adminOnly) triple,
findTextCommand with includeAdminOnly returns the stored pair of name and
response (the adminOnly flag is not part of the result), and when adminOnly
is true the non-admin lookup returns absent. -/
theorem add_find_text_command_roundtrip (s : DBState) (name resp : String) (flag : Bool)
    (hnew : s.text_commands.all (fun r => r.command_name != name) = true) :
    find_text_command name true (add_text_command name resp flag s).1 = some (name, resp) ∧
    (flag = true →
      find_text_command name false (add_text_command name resp flag s).1 = none) := by
  have hne : ∀ r ∈ s.text_commands, r.command_name ≠ name := by
    intro r hr
    have := List.all_eq_true.mp hnew r hr
    simpa [bne_iff_ne] using this
  have hany : s.text_commands.any (fun r => r.command_name == name) = false := by
    rw [List.any_eq_false]
    intro r hr
    simp [hne r hr]
  unfold add_text_command
  rw [hany]
  simp only [Bool.false_eq_true, if_false]
  constructor
  · unfold find_text_command
    rw [List.find?_append]
    have hnone : s.text_commands.find?
        (fun r => r.command_name == name && (true || !r.admin)) = none := by
      rw [List.find?_eq_none]
      intro r hr
      simp [hne r hr]
    rw [hnone]
    simp [List.find?]
  · intro hf
    subst hf
    unfold find_text_command
    rw [List.find?_append]
    have hnone : s.text_commands.find?
        (fun r => r.command_name == name && (false || !r.admin)) = none := by
      rw [List.find?_eq_none]
      intro r hr
      simp [hne r hr]
    rw [hnone]
    simp [List.find?]

/-- C6 witness: a concrete admin-only round trip on the seeded store. -/
theorem add_find_text_command_roundtrip_witness :
    find_text_command "greet" true (add_text_command "greet" "hi" true initState).1
      = some ("greet", "hi") ∧
    (true = true →
      find_text_command "greet" false (add_text_command "greet" "hi" true initState).1
        = none) :=
  add_find_text_command_roundtrip initState "greet" "hi" true (by decide)

/-- C7 counterexample: the admin message add textcommand with no name or
response payload does not produce the generic invalid-command response; the
ValueError from the four-way unpack propagates out of the router (only
IntegrityError is caught) and nothing is sent. -/
theorem malformed_add_textcommand_raises :
    parse_command "!" ⟨"170045009318510593", "!add textcommand", [], []⟩ initState =
      ⟨initState, .raised .valueError, []⟩ := by decide

/-- C7 amended: for an admin caller a wrong token count in an add
textcommand command raises ValueError, which the router propagates with no
routed response; for a non-admin caller the same first token falls through
to the plain-invocation branch and, matching nothing, yields the generic
invalid-command response. -/
theorem malformed_command_handling
    (pfx1 : String) (msg1 : Message) (s1 : DBState) (x y : String)
    (ha1 : is_user_admin msg1.author_id s1 = true)
    (hc1 : first_token_lower (content_of pfx1 msg1) = "add")
    (hs1 : subtype_token (content_of pfx1 msg1) = some "textcommand")
    (hsplit1 : pySplitSpace (content_of pfx1 msg1) 3 = [x, y])
    (pfx2 : String) (msg2 : Message) (s2 : DBState)
    (hna : is_user_admin msg2.author_id s2 = false)
    (hc2 : first_token_lower (content_of pfx2 msg2) = "add")
    (hmiss_t : s2.text_commands.all (fun r => r.command_name != "add") = true)
    (hmiss_r : s2.role_commands.all (fun r => r.command_name != "add") = true) :
    parse_command pfx1 msg1 s1 = ⟨s1, .raised .valueError, []⟩ ∧
    parse_command pfx2 msg2 s2 = ⟨s2, .sent "Invalid command!", []⟩ := by
  constructor
  · rw [route_add_textcommand pfx1 msg1 s1 ha1 hc1 hs1]
    unfold add_text_command_h
    rw [hsplit1]
  · have h1 : (first_token_lower (content_of pfx2 msg2) == "commands") = false := by
      rw [hc2]
      rfl
    have h2 : (admin_commands.contains (first_token_lower (content_of pfx2 msg2)) &&
        is_user_admin msg2.author_id s2) = false := by
      rw [hna, Bool.and_false]
    rw [route_plain pfx2 msg2 s2 h1 h2]
    have hne_t : ∀ r ∈ s2.text_commands, r.command_name ≠ "add" := by
      intro r hr
      simpa [bne_iff_ne] using List.all_eq_true.mp hmiss_t r hr
    have hne_r : ∀ r ∈ s2.role_commands, r.command_name ≠ "add" := by
      intro r hr
      simpa [bne_iff_ne] using List.all_eq_true.mp hmiss_r r hr
    have ht : find_text_command (first_token_lower (content_of pfx2 msg2))
        (is_user_admin msg2.author_id s2) s2 = none := by
      unfold find_text_command
      rw [hc2, hna]
      have : s2.text_commands.find?
          (fun r => r.command_name == "add" && (false || !r.admin)) = none := by
        rw [List.find?_eq_none]
        intro r hr
        simp [hne_t r hr]
      rw [this]
      rfl
    have hrnone : find_role_command (first_token_lower (content_of pfx2 msg2)) s2 = none := by
      unfold find_role_command
      rw [hc2]
      have : s2.role_commands.find? (fun r => r.command_name == "add") = none := by
        rw [List.find?_eq_none]
        intro r hr
        simp [hne_r r hr]
      rw [this]
    rw [hc2] at ht hrnone ⊢
    simp [ht, hrnone]

/-- C7 witness: concrete malformed admin input raising, and the same first
token from a non-admin yielding the invalid-command response. -/
theorem malformed_command_handling_witness :
    parse_command "!" ⟨"170045009318510593", "!add textcommand", [], []⟩ initState =
      ⟨initState, .raised .valueError, []⟩ ∧
    parse_command "!" ⟨"99", "!add textcommand", [], []⟩ initState =
      ⟨initState, .sent "Invalid command!", []⟩ :=
  malformed_command_handling
    "!" ⟨"170045009318510593", "!add textcommand", [], []⟩ initState "add" "textcommand"
    (by decide) (by decide) (by decide) (by decide)
    "!" ⟨"99", "!add textcommand", [], []⟩ initState
    (by decide) (by decide) (by decide) (by decide)

/-- C10 counterexample: with both Hello (stored upper-case) and hello
stored, invoking Hello lowercases the token and resolves the other command,
answering its response B rather than the generic invalid-command text the
claim requires. -/
theorem uppercase_invocation_can_resolve_twin :
    parse_command "!" ⟨"99", "!Hello", [], []⟩
        ⟨[(1, "170045009318510593")],
          [⟨1, "Hello", "A", false⟩, ⟨2, "hello", "B", false⟩], [], []⟩ =
      ⟨⟨[(1, "170045009318510593")],
          [⟨1, "Hello", "A", false⟩, ⟨2, "hello", "B", false⟩], [], []⟩,
        .sent "B", []⟩ := by decide

/-- C10 amended: a stored command name containing an upper-case letter is
unreachable by invocation, because every lowered token differs from it; the
invocation of such a name yields the generic invalid-command response only
when the lowered token is not routed as a built-in and matches no other
stored command. -/
theorem uppercase_stored_name_unreachable
    (s : DBState) (name : String)
    (hup : name.data.any Char.isUpper = true)
    (hstored : s.text_commands.any (fun r => r.command_name == name) = true ∨
               s.role_commands.any (fun r => r.command_name == name) = true)
    (pfx : String) (msg : Message)
    (htok : (pySplitSpace (content_of pfx msg) 1).headD "" = name)
    (h1 : (first_token_lower (content_of pfx msg) == "commands") = false)
    (h2 : (admin_commands.contains (first_token_lower (content_of pfx msg)) &&
           is_user_admin msg.author_id s) = false)
    (hmiss_t : s.text_commands.all
        (fun r => r.command_name != first_token_lower (content_of pfx msg)) = true)
    (hmiss_r : s.role_commands.all
        (fun r => r.command_name != first_token_lower (content_of pfx msg)) = true) :
    (∀ w : String, pyLower w ≠ name) ∧
    parse_command pfx msg s = ⟨s, .sent "Invalid command!", []⟩ := by
  refine ⟨fun w => pyLower_ne_of_hasUpper hup w, ?_⟩
  rw [route_plain pfx msg s h1 h2]
  have hne_t : ∀ r ∈ s.text_commands,
      r.command_name ≠ first_token_lower (content_of pfx msg) := by
    intro r hr
    simpa [bne_iff_ne] using List.all_eq_true.mp hmiss_t r hr
  have hne_r : ∀ r ∈ s.role_commands,
      r.command_name ≠ first_token_lower (content_of pfx msg) := by
    intro r hr
    simpa [bne_iff_ne] using List.all_eq_true.mp hmiss_r r hr
  have ht : find_text_command (first_token_lower (content_of pfx msg))
      (is_user_admin msg.author_id s) s = none := by
    unfold find_text_command
    have : s.text_commands.find?
        (fun r => r.command_name == first_token_lower (content_of pfx msg) &&
          (is_user_admin msg.author_id s || !r.admin)) = none := by
      rw [List.find?_eq_none]
      intro r hr
      simp [hne_t r hr]
    rw [this]
    rfl
  have hrnone : find_role_command (first_token_lower (content_of pfx msg)) s = none := by
    unfold find_role_command
    have : s.role_commands.find?
        (fun r => r.command_name == first_token_lower (content_of pfx msg)) = none := by
      rw [List.find?_eq_none]
      intro r hr
      simp [hne_r r hr]
    rw [this]
  simp [ht, hrnone]

/-- C10 witness: Hello is stored upper-case and its invocation by a
non-admin yields the generic invalid-command response while no lowered
token can ever equal Hello. -/
theorem uppercase_stored_name_unreachable_witness :
    (∀ w : String, pyLower w ≠ "Hello") ∧
    parse_command "!" ⟨"99", "!Hello", [], []⟩
        ⟨[(1, "170045009318510593")], [⟨1, "Hello", "A", false⟩], [], []⟩ =
      ⟨⟨[(1, "170045009318510593")], [⟨1, "Hello", "A", false⟩], [], []⟩,
        .sent "Invalid command!", []⟩ :=
  uppercase_stored_name_unreachable
    ⟨[(1, "170045009318510593")], [⟨1, "Hello", "A", false⟩], [], []⟩ "Hello"
    (by decide) (Or.inl (by decide))
    "!" ⟨"99", "!Hello", [], []⟩
    (by decide) (by decide) (by decide) (by decide) (by decide)

/-- C8 counterexample: with a role command named commands stored, the
listing for a non-admin repeats the name commands (once as the static
built-in section, once in the database-derived list): the rendered name
sequence is not deduplicated across sections, so the listing is not one
merged deduplicated sorted list. -/
theorem commands_listing_not_dedup_across_sections :
    list_commands false ⟨[(1, "170045009318510593")], [], [⟨1, "commands"⟩], []⟩ =
      "**Available Commands:**\n\n\n*General Commands*:\n> commands\n> commands" ∧
    ¬ (static_commands ++
        db_command_names false ⟨[(1, "170045009318510593")], [], [⟨1, "commands"⟩], []⟩).Nodup := by
  constructor
  · decide
  · decide

/-- C8 amended: the database-derived portion of the listing is the sorted,
deduplicated merge of the text command names visible at the caller's
permission level and all role command names; the built-ins are rendered in
fixed sections around it, with the admin built-ins present exactly for
admin callers; and for a non-admin caller an admin-only text command name
appears in the database portion only when a role command shares that name. -/
theorem commands_listing_structure
    (a1 : Bool) (s1 : DBState)
    (s2 : DBState) (row : TextRow)
    (hrow : row ∈ s2.text_commands) (hadm : row.admin = true)
    (hU : (s2.text_commands.map (·.command_name)).Nodup)
    (hnorole : s2.role_commands.all (fun r => r.command_name != row.command_name) = true) :
    List.Sorted (· ≤ ·) (db_command_names a1 s1) ∧
    (db_command_names a1 s1).Nodup ∧
    (∀ x, x ∈ db_command_names a1 s1 ↔
      x ∈ (get_all_text_commands a1 s1).map (·.command_name) ∨
      x ∈ (get_all_role_commands s1).map (·.command_name)) ∧
    list_commands true s1 =
      "**Available Commands:**\n\n*Admin Commands:*\n> add\n> remove\n" ++
        "\n*General Commands*:\n> commands\n> " ++
        String.intercalate "\n> " (db_command_names true s1) ∧
    list_commands false s1 =
      "**Available Commands:**\n\n" ++ "\n*General Commands*:\n> commands\n> " ++
        String.intercalate "\n> " (db_command_names false s1) ∧
    row.command_name ∉ db_command_names false s2 := by
  refine ⟨sorted_db_command_names a1 s1, nodup_db_command_names a1 s1,
    fun x => mem_db_command_names, rfl, rfl, ?_⟩
  intro hmem
  rcases mem_db_command_names.mp hmem with hmem | hmem
  · simp only [get_all_text_commands, Bool.false_eq_true, if_false, List.mem_map] at hmem
    obtain ⟨r, hr, hname⟩ := hmem
    obtain ⟨hrl, hradm⟩ := List.mem_filter.mp hr
    have := List.inj_on_of_nodup_map hU hrl hrow hname
    subst this
    rw [hadm] at hradm
    cases hradm
  · simp only [get_all_role_commands, List.mem_map] at hmem
    obtain ⟨r, hr, hname⟩ := hmem
    have := List.all_eq_true.mp hnorole r hr
    rw [hname] at this
    simp at this

/-- C8 witness: concrete listing facts, including that the admin-only text
command secret is absent from the non-admin listing names. -/
theorem commands_listing_structure_witness :
    (List.Sorted (· ≤ ·) (db_command_names false initState) ∧
     (db_command_names false initState).Nodup) ∧
    ("secret" ∉ db_command_names false
      ⟨[(1, "170045009318510593")], [⟨1, "secret", "x", true⟩], [⟨1, "pub"⟩], []⟩) := by
  have h := commands_listing_structure false initState
    ⟨[(1, "170045009318510593")], [⟨1, "secret", "x", true⟩], [⟨1, "pub"⟩], []⟩
    ⟨1, "secret", "x", true⟩ (by decide) rfl (by decide) (by decide)
  exact ⟨⟨h.1, h.2.1⟩, h.2.2.2.2.2⟩
